import Mathlib

/-!
Shallow embedding of `src/raspberry_pi_math_quiz.py`.

The program is a single-threaded interactive loop over a pair of GPIO output
lines.  We model the process state as a `World` holding the scripted standard
input, a schedule of keyboard interrupts arriving during `time.sleep`, an
optional fault injection point for GPIO library calls, the state of each pin,
and a trace of observable events (GPIO configuration, pin writes, sleeps,
cleanup, prompts and printed lines).  Python exceptions are modelled by an
`Except Exc` result threaded explicitly through every operation; a `finally`
block is modelled by running the cleanup on both outcomes, with an exception
raised by the cleanup itself replacing the one in flight (CPython semantics).

Modelling conventions:
  * Keyboard interrupts are delivered at blocking operations only (`input` and
    `time.sleep`), via the stdin script and the `sleeps` schedule.
  * A GPIO library call may fail (`RuntimeError`, e.g. permission denied or
    device absent): `failAt = some k` makes the k-th GPIO call (0-based, over
    the whole run) raise.  `failAt = none` means the medium is healthy.
  * For configuration and write calls a fault aborts the call before it takes
    effect (no event, no pin change).  `Gpio.cleanup` records its event (with a
    snapshot of the two indicator pins at the moment of the call) before the
    fault check, so the trace marks each invocation of release; a faulting
    cleanup does not reset the pins.
  * `int(...)` is modelled for ASCII text: optional surrounding whitespace, an
    optional sign, then decimal digits (underscore grouping and non-ASCII
    digits are not modelled).  `str.strip()` / `str.lower()` are modelled for
    ASCII likewise.
  * The unbounded `while True` quiz loop takes a fuel parameter; exhausted
    fuel surfaces as the distinguished `Exc.fuelOut`, which no handler in the
    program catches.
-/

namespace RPiQuiz

/-- GPIO logical levels, as in `RPi.GPIO` and the mock: `HIGH = 1`. -/
def GPIO_HIGH : Nat := 1

/-- GPIO logical levels, as in `RPi.GPIO` and the mock: `LOW = 0`. -/
def GPIO_LOW : Nat := 0

/-- `PIN_GREEN_LED = 33` (BOARD numbering) — correct-answer indicator. -/
def PIN_GREEN_LED : Nat := 33

/-- `PIN_RED_LED = 35` (BOARD numbering) — wrong-answer indicator. -/
def PIN_RED_LED : Nat := 35

/-- `LED_ON_DURATION = 5` seconds. -/
def LED_ON_DURATION : ℚ := 5

/-- State of one pin: unconfigured, or configured as an output and driven at a
level (`none` until the first write after `Gpio.setup`). -/
inductive PinState
  | unconfigured
  | outp (level : Option Nat)
  deriving DecidableEq, Repr

/-- Python exceptions reachable in this program, plus the fuel sentinel. -/
inductive Exc
  | valueError
  | eofError
  | keyboardInterrupt
  | runtimeError
  | systemExit (code : Nat)
  | fuelOut
  deriving DecidableEq, Repr

deriving instance DecidableEq for Except

/-- One scripted happening at `input()`: a line of text, end of stream, or a
keyboard interrupt arriving while blocked on the read. -/
inductive InEvent
  | line (s : String)
  | eof
  | interrupt
  deriving DecidableEq, Repr

/-- Observable events of a run. -/
inductive Event
  | setwarnings
  | setmode
  | setupPin (pin : Nat)
  | write (pin : Nat) (level : Nat)
  | sleep (d : ℚ)
  | cleanup (green red : PinState)
  | prompt (s : String)
  | msg (s : String)
  deriving DecidableEq, Repr

/-- The whole process state. -/
structure World where
  stdin : List InEvent
  sleeps : List Bool
  failAt : Option Nat
  gpioCount : Nat
  pins : Nat → PinState
  trace : List Event

/-- Append one observable event. -/
def emit (w : World) (e : Event) : World := { w with trace := w.trace ++ [e] }

/-- Account one GPIO library call; the returned flag says whether this call is
the scheduled fault. -/
def gpioCall (w : World) : Bool × World :=
  (match w.failAt with
   | some k => decide (k = w.gpioCount)
   | none => false,
   { w with gpioCount := w.gpioCount + 1 })

namespace Gpio

/-- `Gpio.setwarnings(False)`. -/
def setwarnings (w : World) : Except Exc Unit × World :=
  let (f, w) := gpioCall w
  if f then (.error .runtimeError, w) else (.ok (), emit w .setwarnings)

/-- `Gpio.setmode(GPIO.BOARD)`. -/
def setmode (w : World) : Except Exc Unit × World :=
  let (f, w) := gpioCall w
  if f then (.error .runtimeError, w) else (.ok (), emit w .setmode)

/-- `Gpio.setup(pin, GPIO.OUT)`: configure `pin` as an output. -/
def setup (pin : Nat) (w : World) : Except Exc Unit × World :=
  let (f, w) := gpioCall w
  if f then (.error .runtimeError, w)
  else (.ok (), emit { w with pins := fun p => if p = pin then .outp none else w.pins p }
                     (.setupPin pin))

/-- `Gpio.output(pin, level)`: drive `pin` at `level`. -/
def output (pin : Nat) (level : Nat) (w : World) : Except Exc Unit × World :=
  let (f, w) := gpioCall w
  if f then (.error .runtimeError, w)
  else (.ok (), emit { w with pins := fun p => if p = pin then .outp (some level) else w.pins p }
                     (.write pin level))

/-- `Gpio.cleanup()`: release every channel.  The event (with a snapshot of the
two indicator pins taken at the moment of the call) marks the invocation; a
fault raises after that mark without resetting the pins. -/
def cleanup (w : World) : Except Exc Unit × World :=
  let (f, w) := gpioCall w
  let w := emit w (.cleanup (w.pins PIN_GREEN_LED) (w.pins PIN_RED_LED))
  if f then (.error .runtimeError, w)
  else (.ok (), { w with pins := fun _ => .unconfigured })

end Gpio

/-- `time.sleep(d)`: raises `ValueError` on a negative span, otherwise blocks
for `d` seconds; the `sleeps` schedule decides whether a keyboard interrupt
arrives during the block (an empty schedule means none does). -/
def timeSleep (d : ℚ) (w : World) : Except Exc Unit × World :=
  if d < 0 then (.error .valueError, w)
  else
    let w := emit w (.sleep d)
    match w.sleeps with
    | [] => (.ok (), w)
    | b :: rest =>
      let w := { w with sleeps := rest }
      if b then (.error .keyboardInterrupt, w) else (.ok (), w)

/-- `input(prompt)`: print the prompt, then read one line; end of stream raises
`EOFError`, and a pending interrupt raises `KeyboardInterrupt`. -/
def pyInput (p : String) (w : World) : Except Exc String × World :=
  match w.stdin with
  | [] => (.error .eofError, emit w (.prompt p))
  | .eof :: rest => (.error .eofError, { emit w (.prompt p) with stdin := rest })
  | .interrupt :: rest => (.error .keyboardInterrupt, { emit w (.prompt p) with stdin := rest })
  | .line s :: rest => (.ok s, { emit w (.prompt p) with stdin := rest })

/-- Decimal digits to a number, most significant first. -/
def digitsToNat (l : List Char) : Nat :=
  l.foldl (fun acc c => acc * 10 + (c.toNat - 48)) 0

/-- `str.strip()` (ASCII whitespace). -/
def pyStrip (s : String) : String :=
  String.mk (((s.data.dropWhile Char.isWhitespace).reverse.dropWhile Char.isWhitespace).reverse)

/-- `str.lower()` (ASCII). -/
def pyLower (s : String) : String :=
  String.mk (s.data.map Char.toLower)

/-- `int(s)`: strip whitespace, an optional sign, then a nonempty run of
decimal digits; anything else raises `ValueError` (here: `none`). -/
def pyInt (s : String) : Option Int :=
  match (pyStrip s).data with
  | [] => none
  | c :: cs =>
    if c = '-' then
      if cs ≠ [] ∧ cs.all Char.isDigit then some (-(digitsToNat cs : Int)) else none
    else if c = '+' then
      if cs ≠ [] ∧ cs.all Char.isDigit then some ((digitsToNat cs : Int)) else none
    else
      if (c :: cs).all Char.isDigit then some ((digitsToNat (c :: cs) : Int)) else none

/-- The retry loop of `get_integer_input`, by structural recursion on the
scripted stdin (each retry consumes one scripted item; an exhausted script is
end of stream).  The `input()` call is inlined: `prompt`, then the head item.
Invariant at every call: the list argument equals `w.stdin`. -/
def gii_go (p : String) : List InEvent → World → Except Exc Int × World
  | [], w =>
    -- input() raises EOFError: print the notice, then sys.exit(1)
    let w := emit w (.prompt p)
    (.error (.systemExit 1), emit w (.msg "\n⚠️  Input stream closed."))
  | .eof :: rest, w =>
    let w := { emit w (.prompt p) with stdin := rest }
    (.error (.systemExit 1), emit w (.msg "\n⚠️  Input stream closed."))
  | .interrupt :: rest, w =>
    (.error .keyboardInterrupt, { emit w (.prompt p) with stdin := rest })
  | .line s :: rest, w =>
    let w := { emit w (.prompt p) with stdin := rest }
    match pyInt s with
    | some n => (.ok n, w)
    | none => gii_go p rest (emit w (.msg "❌ Please enter a valid integer."))

/-- `get_integer_input(prompt)`: loop reading `int(input(prompt))`, re-prompting
on `ValueError`, exiting with status 1 on `EOFError`; `KeyboardInterrupt`
propagates. -/
def get_integer_input (p : String) (w : World) : Except Exc Int × World :=
  gii_go p w.stdin w

/-- The body of `gpio_context` before `yield`: configure both pins as outputs
and force both to `HIGH` (off, active-low). -/
def gpio_setup (w : World) : Except Exc Unit × World :=
  match Gpio.setwarnings w with
  | (.error e, w) => (.error e, w)
  | (.ok _, w) =>
  match Gpio.setmode w with
  | (.error e, w) => (.error e, w)
  | (.ok _, w) =>
  match Gpio.setup PIN_GREEN_LED w with
  | (.error e, w) => (.error e, w)
  | (.ok _, w) =>
  match Gpio.setup PIN_RED_LED w with
  | (.error e, w) => (.error e, w)
  | (.ok _, w) =>
  match Gpio.output PIN_GREEN_LED GPIO_HIGH w with
  | (.error e, w) => (.error e, w)
  | (.ok _, w) => Gpio.output PIN_RED_LED GPIO_HIGH w

/-- `gpio_context()` driving `body` at the `yield` point: `try:` setup, yield;
`finally: Gpio.cleanup()`.  The cleanup runs on every exit; an exception it
raises replaces the one in flight (CPython `finally` semantics). -/
def gpio_context (body : World → Except Exc Unit × World) (w : World) :
    Except Exc Unit × World :=
  let (r, w1) :=
    match gpio_setup w with
    | (.error e, w) => (.error e, w)
    | (.ok _, w) => body w
  match Gpio.cleanup w1 with
  | (.error e, w2) => (.error e, w2)
  | (.ok _, w2) => (r, w2)

/-- `flash_led(pin, duration)`: drive the pin `LOW` (on), sleep, drive it
`HIGH` (off). -/
def flash_led (pin : Nat) (duration : ℚ) (w : World) : Except Exc Unit × World :=
  match Gpio.output pin GPIO_LOW w with
  | (.error e, w) => (.error e, w)
  | (.ok _, w) =>
  match timeSleep duration w with
  | (.error e, w) => (.error e, w)
  | (.ok _, w) => Gpio.output pin GPIO_HIGH w

/-- The `while True:` body of `run_quiz`, with fuel for the unbounded loop. -/
def quiz_loop : Nat → World → Except Exc Unit × World
  | 0, w => (.error .fuelOut, w)
  | fuel + 1, w =>
    match get_integer_input "Enter first number: " w with
    | (.error e, w) => (.error e, w)
    | (.ok num1, w) =>
    match get_integer_input "Enter second number: " w with
    | (.error e, w) => (.error e, w)
    | (.ok num2, w) =>
    match get_integer_input ("What is " ++ toString num1 ++ " + " ++ toString num2 ++ "? ") w with
    | (.error e, w) => (.error e, w)
    | (.ok user_answer, w) =>
      let correct_answer := num1 + num2
      let step :=
        if user_answer = correct_answer then
          let w := emit w (.msg ("✅ Correct! " ++ toString num1 ++ " + " ++ toString num2
                                  ++ " = " ++ toString correct_answer))
          let w := emit w (.msg "🟢 Green LED ON")
          flash_led PIN_GREEN_LED LED_ON_DURATION w
        else
          let w := emit w (.msg ("❌ Wrong! " ++ toString num1 ++ " + " ++ toString num2
                                  ++ " = " ++ toString correct_answer
                                  ++ " (you said " ++ toString user_answer ++ ")"))
          let w := emit w (.msg "🔴 Red LED ON")
          flash_led PIN_RED_LED LED_ON_DURATION w
      match step with
      | (.error e, w) => (.error e, w)
      | (.ok _, w) =>
        let w := emit w (.msg "")
        match pyInput "Try another? (y/n): " w with
        | (.error e, w) => (.error e, w)
        | (.ok again, w) =>
          if pyLower (pyStrip again) ≠ "y" then (.ok (), w)
          else quiz_loop fuel (emit w (.msg ""))

/-- A row of fifty `=` characters (`"=" * 50`). -/
def eqRow : String := String.mk (List.replicate 50 '=')

/-- The banner printed by `run_quiz` before entering the GPIO scope. -/
def banner (w : World) : World :=
  let w := emit w (.msg ("\n" ++ eqRow))
  let w := emit w (.msg "🧮 RASPBERRY PI MATH QUIZ")
  let w := emit w (.msg eqRow)
  let w := emit w (.msg "Answer correctly to see the GREEN light!")
  emit w (.msg "Wrong answers get the RED light.\n")

/-- The `try ... except KeyboardInterrupt` wrapping the quiz loop inside the
`with` block. -/
def quiz_body (fuel : Nat) (w : World) : Except Exc Unit × World :=
  match quiz_loop fuel w with
  | (.error .keyboardInterrupt, w) => (.ok (), emit w (.msg "\n\n👋 Quiz ended. Goodbye!"))
  | r => r

/-- `run_quiz()`: banner, then the quiz loop inside the GPIO scope. -/
def run_quiz (fuel : Nat) (w : World) : Except Exc Unit × World :=
  gpio_context (quiz_body fuel) (banner w)

/-- `main()` plus the interpreter's top level: exit status 0 when `run_quiz`
returns, the carried status on `SystemExit`, and 1 on any uncaught
exception. -/
def pyMain (fuel : Nat) (w : World) : Nat × World :=
  match run_quiz fuel w with
  | (.ok _, w) => (0, w)
  | (.error (.systemExit n), w) => (n, w)
  | (.error _, w) => (1, w)

/-- Number of assert edges (writes of `LOW`) to `pin` in a trace: each pulse of
a line contributes exactly one. -/
def assertsOf (pin : Nat) (tr : List Event) : Nat :=
  tr.countP fun e => match e with
    | .write p v => p == pin && v == GPIO_LOW
    | _ => false

/-- Number of `Gpio.cleanup` invocations recorded in a trace. -/
def cleanupCount (tr : List Event) : Nat :=
  tr.countP fun e => match e with
    | .cleanup _ _ => true
    | _ => false

/-- Number of prompt events in a trace (every read shows a prompt first). -/
def promptCount (tr : List Event) : Nat :=
  tr.countP fun e => match e with
    | .prompt _ => true
    | _ => false

/-- The pin writes of a trace, in order. -/
def writesIn (tr : List Event) : List (Nat × Nat) :=
  tr.filterMap fun e => match e with
    | .write p v => some (p, v)
    | _ => none

/-- A fresh process over a scripted stdin: healthy medium, no interrupts
scheduled, all pins unconfigured, empty trace. -/
def mkWorld (inp : List InEvent) : World :=
  { stdin := inp, sleeps := [], failAt := none, gpioCount := 0,
    pins := fun _ => .unconfigured, trace := [] }

/-! ## Helper lemmas -/

@[simp] theorem cleanupCount_append (t1 t2 : List Event) :
    cleanupCount (t1 ++ t2) = cleanupCount t1 + cleanupCount t2 :=
  List.countP_append _ _ _

@[simp] theorem assertsOf_append (pin : Nat) (t1 t2 : List Event) :
    assertsOf pin (t1 ++ t2) = assertsOf pin t1 + assertsOf pin t2 :=
  List.countP_append _ _ _

@[simp] theorem promptCount_append (t1 t2 : List Event) :
    promptCount (t1 ++ t2) = promptCount t1 + promptCount t2 :=
  List.countP_append _ _ _

@[simp] theorem writesIn_append (t1 t2 : List Event) :
    writesIn (t1 ++ t2) = writesIn t1 ++ writesIn t2 :=
  List.filterMap_append _ _ _

@[simp] theorem cleanupCount_nil : cleanupCount ([] : List Event) = 0 := rfl

@[simp] theorem promptCount_nil : promptCount ([] : List Event) = 0 := rfl

@[simp] theorem assertsOf_nil (pin : Nat) : assertsOf pin ([] : List Event) = 0 := rfl

@[simp] theorem writesIn_nil : writesIn ([] : List Event) = [] := rfl

@[simp] theorem cleanupCount_cons (e : Event) (t : List Event) :
    cleanupCount (e :: t) = (match e with | .cleanup _ _ => 1 | _ => 0) + cleanupCount t := by
  cases e <;> simp [cleanupCount, List.countP_cons, Nat.add_comm]

@[simp] theorem promptCount_cons (e : Event) (t : List Event) :
    promptCount (e :: t) = (match e with | .prompt _ => 1 | _ => 0) + promptCount t := by
  cases e <;> simp [promptCount, List.countP_cons, Nat.add_comm]

@[simp] theorem writesIn_cons (e : Event) (t : List Event) :
    writesIn (e :: t) = (match e with | .write p v => [(p, v)] | _ => []) ++ writesIn t := by
  cases e <;> simp [writesIn, List.filterMap_cons]

@[simp] theorem assertsOf_cons (pin : Nat) (e : Event) (t : List Event) :
    assertsOf pin (e :: t)
      = (match e with | .write p v => if p = pin ∧ v = GPIO_LOW then 1 else 0 | _ => 0)
        + assertsOf pin t := by
  cases e with
  | write p v =>
    simp only [assertsOf, List.countP_cons]
    by_cases hp : p = pin <;> by_cases hv : v = GPIO_LOW <;> simp [hp, hv, Nat.add_comm]
  | _ => simp [assertsOf, List.countP_cons]

/-- Frame: the input-reading loop touches neither the interrupt schedule, the
fault schedule, the GPIO call counter, nor any pin. -/
theorem gii_go_frame (p : String) (l : List InEvent) (w : World) :
    (gii_go p l w).2.sleeps = w.sleeps ∧ (gii_go p l w).2.failAt = w.failAt ∧
    (gii_go p l w).2.gpioCount = w.gpioCount ∧ (gii_go p l w).2.pins = w.pins := by
  induction l generalizing w with
  | nil => simp [gii_go, emit]
  | cons e rest ih =>
    cases e with
    | line s =>
      cases hps : pyInt s with
      | some n => simp [gii_go, emit, hps]
      | none => simpa [gii_go, emit, hps] using ih _
    | eof => simp [gii_go, emit]
    | interrupt => simp [gii_go, emit]

/-- The input-reading loop appends only prompt and message events: no pin
write and no cleanup ever comes from it. -/
theorem gii_go_trace (p : String) (l : List InEvent) (w : World) :
    cleanupCount (gii_go p l w).2.trace = cleanupCount w.trace ∧
    writesIn (gii_go p l w).2.trace = writesIn w.trace := by
  induction l generalizing w with
  | nil => simp [gii_go, emit]
  | cons e rest ih =>
    cases e with
    | line s =>
      cases hps : pyInt s with
      | some n => simp [gii_go, emit, hps]
      | none =>
        simp only [gii_go, emit, hps]
        refine ⟨?_, ?_⟩
        · rw [(ih _).1]; simp
        · rw [(ih _).2]; simp
    | eof => simp [gii_go, emit]
    | interrupt => simp [gii_go, emit]

/-- Frame for `pyInput`: only stdin and the trace change, and the trace gains a
single prompt event. -/
theorem pyInput_frame (p : String) (w : World) :
    (pyInput p w).2.sleeps = w.sleeps ∧ (pyInput p w).2.failAt = w.failAt ∧
    (pyInput p w).2.gpioCount = w.gpioCount ∧ (pyInput p w).2.pins = w.pins ∧
    cleanupCount (pyInput p w).2.trace = cleanupCount w.trace ∧
    writesIn (pyInput p w).2.trace = writesIn w.trace := by
  cases h : w.stdin with
  | nil => simp [pyInput, h, emit]
  | cons e rest =>
    cases e <;> simp [pyInput, h, emit]

/-- Frame for `time.sleep`: stdin, fault schedule, counter, pins and the
write/cleanup content of the trace are untouched; an empty interrupt schedule
stays empty. -/
theorem timeSleep_frame (d : ℚ) (w : World) :
    (timeSleep d w).2.stdin = w.stdin ∧ (timeSleep d w).2.failAt = w.failAt ∧
    (timeSleep d w).2.gpioCount = w.gpioCount ∧ (timeSleep d w).2.pins = w.pins ∧
    (w.sleeps = [] → (timeSleep d w).2.sleeps = []) ∧
    cleanupCount (timeSleep d w).2.trace = cleanupCount w.trace ∧
    writesIn (timeSleep d w).2.trace = writesIn w.trace := by
  by_cases hd : d < 0
  · simp [timeSleep, hd]
  · cases hs : w.sleeps with
    | nil => simp [timeSleep, hd, hs, emit]
    | cons b rest =>
      cases b <;> simp [timeSleep, hd, hs, emit]

/-- Frame for `Gpio.output`: every pin other than the written one keeps its
state; everything except pins, counter and trace is untouched, and the trace
gains no cleanup event. -/
theorem output_frame (pin lvl : Nat) (w : World) :
    (Gpio.output pin lvl w).2.stdin = w.stdin ∧ (Gpio.output pin lvl w).2.sleeps = w.sleeps ∧
    (Gpio.output pin lvl w).2.failAt = w.failAt ∧
    cleanupCount (Gpio.output pin lvl w).2.trace = cleanupCount w.trace ∧
    ∀ q, q ≠ pin → (Gpio.output pin lvl w).2.pins q = w.pins q := by
  cases hfa : w.failAt with
  | none =>
    simp only [Gpio.output, gpioCall, hfa, emit]
    refine ⟨rfl, rfl, rfl, by simp, fun q hq => by simp [hq]⟩
  | some k =>
    by_cases hk : k = w.gpioCount
    · simp [Gpio.output, gpioCall, hfa, hk, emit]
    · simp only [Gpio.output, gpioCall, hfa, hk, emit, decide_eq_true_eq]
      refine ⟨by simp [hk], by simp [hk], by simp [hk], by simp [hk], fun q hq => by simp [hk, hq]⟩

/-- Frame for `flash_led`: whatever happens (including a fault or an interrupt
mid-sleep), only the flashed pin is ever written; stdin, the fault point and
the cleanup content of the trace are untouched, and an empty interrupt
schedule stays empty. -/
theorem flash_led_frame (pin : Nat) (d : ℚ) (w : World) :
    (flash_led pin d w).2.stdin = w.stdin ∧ (flash_led pin d w).2.failAt = w.failAt ∧
    (w.sleeps = [] → (flash_led pin d w).2.sleeps = []) ∧
    cleanupCount (flash_led pin d w).2.trace = cleanupCount w.trace ∧
    ∀ q, q ≠ pin → (flash_led pin d w).2.pins q = w.pins q := by
  have f1 := output_frame pin GPIO_LOW w
  unfold flash_led
  rcases h1 : Gpio.output pin GPIO_LOW w with ⟨r1, w1⟩
  rw [h1] at f1
  obtain ⟨a1, b1, c1, d1, e1⟩ := f1
  cases r1 with
  | error e => exact ⟨a1, c1, fun h => b1.trans h, d1, e1⟩
  | ok u =>
    dsimp only
    have f2 := timeSleep_frame d w1
    rcases h2 : timeSleep d w1 with ⟨r2, w2⟩
    rw [h2] at f2
    obtain ⟨a2, b2, c2, d2, e2, f2c, g2⟩ := f2
    cases r2 with
    | error e =>
      exact ⟨a2.trans a1, b2.trans c1, fun h => e2 (b1.trans h), f2c.trans d1,
        fun q hq => (congrFun d2 q).trans (e1 q hq)⟩
    | ok u2 =>
      dsimp only
      have f3 := output_frame pin GPIO_HIGH w2
      rcases h3 : Gpio.output pin GPIO_HIGH w2 with ⟨r3, w3⟩
      rw [h3] at f3
      obtain ⟨a3, b3, c3, d3, e3⟩ := f3
      exact ⟨a3.trans (a2.trans a1), c3.trans (b2.trans c1),
        fun h => b3.trans (e2 (b1.trans h)), d3.trans (f2c.trans d1),
        fun q hq => ((e3 q hq).trans (congrFun d2 q)).trans (e1 q hq)⟩

/-- Full evaluation of a healthy pulse: assert, sleep, deassert, leaving the
pin driven `HIGH` and exactly three events appended. -/
theorem flash_led_ok (pin : Nat) (d : ℚ) (w : World) (hf : w.failAt = none)
    (hs : w.sleeps = []) (hd : 0 ≤ d) :
    flash_led pin d w =
      (.ok (), { w with
        gpioCount := w.gpioCount + 1 + 1,
        pins := fun p => if p = pin then .outp (some GPIO_HIGH)
                else if p = pin then .outp (some GPIO_LOW) else w.pins p,
        trace := w.trace ++ [.write pin GPIO_LOW, .sleep d, .write pin GPIO_HIGH] }) := by
  have hd' : ¬d < 0 := not_lt.mpr hd
  rcases w with ⟨stdin, sleeps, failAt, gcount, pins, trace⟩
  simp only at hf hs
  subst hf; subst hs
  simp [flash_led, Gpio.output, gpioCall, timeSleep, emit, hd']

/-- Full evaluation of the setup half of `gpio_context` on a healthy medium:
mode set, both pins configured, both forced `HIGH` (deasserted). -/
theorem gpio_setup_ok (w : World) (hf : w.failAt = none) :
    gpio_setup w =
      (.ok (), { w with
        gpioCount := w.gpioCount + 1 + 1 + 1 + 1 + 1 + 1,
        pins := fun p => if p = PIN_RED_LED then .outp (some GPIO_HIGH)
                else if p = PIN_GREEN_LED then .outp (some GPIO_HIGH)
                else if p = PIN_RED_LED then .outp none
                else if p = PIN_GREEN_LED then .outp none else w.pins p,
        trace := w.trace ++ [.setwarnings, .setmode, .setupPin PIN_GREEN_LED,
                             .setupPin PIN_RED_LED, .write PIN_GREEN_LED GPIO_HIGH,
                             .write PIN_RED_LED GPIO_HIGH] }) := by
  rcases w with ⟨stdin, sleeps, failAt, gcount, pins, trace⟩
  simp only at hf
  subst hf
  simp [gpio_setup, Gpio.setwarnings, Gpio.setmode, Gpio.setup, Gpio.output, gpioCall, emit]

/-- Full evaluation of a healthy release: one cleanup event carrying the pin
snapshot, then every pin unconfigured. -/
theorem cleanup_ok (w : World) (hf : w.failAt = none) :
    Gpio.cleanup w =
      (.ok (), { w with
        gpioCount := w.gpioCount + 1,
        pins := fun _ => .unconfigured,
        trace := w.trace ++ [.cleanup (w.pins PIN_GREEN_LED) (w.pins PIN_RED_LED)] }) := by
  rcases w with ⟨stdin, sleeps, failAt, gcount, pins, trace⟩
  simp only at hf
  subst hf
  simp [Gpio.cleanup, gpioCall, emit]

/-- `Gpio.cleanup` always records exactly one cleanup invocation, fault or
not, and changes nothing else of the bookkeeping state. -/
theorem cleanup_trace (w : World) :
    cleanupCount (Gpio.cleanup w).2.trace = cleanupCount w.trace + 1 := by
  cases hfa : w.failAt with
  | none => simp [Gpio.cleanup, gpioCall, hfa, emit]
  | some k =>
    by_cases hk : k = w.gpioCount <;> simp [Gpio.cleanup, gpioCall, hfa, hk, emit]

/-- The banner only prints. -/
theorem banner_eq (w : World) :
    banner w = { w with trace := w.trace ++ [.msg ("\n" ++ eqRow),
      .msg "🧮 RASPBERRY PI MATH QUIZ", .msg eqRow,
      .msg "Answer correctly to see the GREEN light!",
      .msg "Wrong answers get the RED light.\n"] } := by
  rcases w with ⟨stdin, sleeps, failAt, gcount, pins, trace⟩
  simp [banner, emit]

@[simp] theorem emit_stdin (w : World) (e : Event) : (emit w e).stdin = w.stdin := rfl

@[simp] theorem emit_sleeps (w : World) (e : Event) : (emit w e).sleeps = w.sleeps := rfl

@[simp] theorem emit_failAt (w : World) (e : Event) : (emit w e).failAt = w.failAt := rfl

@[simp] theorem emit_gpioCount (w : World) (e : Event) : (emit w e).gpioCount = w.gpioCount := rfl

@[simp] theorem emit_pins (w : World) (e : Event) : (emit w e).pins = w.pins := rfl

@[simp] theorem emit_trace (w : World) (e : Event) : (emit w e).trace = w.trace ++ [e] := rfl

/-- Frame for `get_integer_input`, inherited from the retry loop. -/
theorem get_integer_input_frame (p : String) (w : World) :
    (get_integer_input p w).2.sleeps = w.sleeps ∧
    (get_integer_input p w).2.failAt = w.failAt ∧
    (get_integer_input p w).2.gpioCount = w.gpioCount ∧
    (get_integer_input p w).2.pins = w.pins :=
  gii_go_frame p w.stdin w

/-- `get_integer_input` appends neither writes nor cleanups to the trace. -/
theorem get_integer_input_trace (p : String) (w : World) :
    cleanupCount (get_integer_input p w).2.trace = cleanupCount w.trace ∧
    writesIn (get_integer_input p w).2.trace = writesIn w.trace :=
  gii_go_trace p w.stdin w

/-- Frame for the whole quiz loop: whatever stdin drives it to do, it never
touches the fault point, keeps an empty interrupt schedule empty, and never
performs a cleanup of its own. -/
theorem quiz_loop_frame (fuel : Nat) (w : World) :
    (quiz_loop fuel w).2.failAt = w.failAt ∧
    (w.sleeps = [] → (quiz_loop fuel w).2.sleeps = []) ∧
    cleanupCount (quiz_loop fuel w).2.trace = cleanupCount w.trace := by
  induction fuel generalizing w with
  | zero => simp [quiz_loop]
  | succ fuel ih =>
    simp only [quiz_loop]
    have g1f := get_integer_input_frame "Enter first number: " w
    have g1t := get_integer_input_trace "Enter first number: " w
    rcases h1 : get_integer_input "Enter first number: " w with ⟨r1, w1⟩
    rw [h1] at g1f g1t
    obtain ⟨s1, f1, -, -⟩ := g1f
    obtain ⟨c1, -⟩ := g1t
    cases r1 with
    | error e => exact ⟨f1, fun h => s1.trans h, c1⟩
    | ok num1 =>
      dsimp only
      have g2f := get_integer_input_frame "Enter second number: " w1
      have g2t := get_integer_input_trace "Enter second number: " w1
      rcases h2 : get_integer_input "Enter second number: " w1 with ⟨r2, w2⟩
      rw [h2] at g2f g2t
      obtain ⟨s2, f2, -, -⟩ := g2f
      obtain ⟨c2, -⟩ := g2t
      cases r2 with
      | error e => exact ⟨f2.trans f1, fun h => s2.trans (s1.trans h), c2.trans c1⟩
      | ok num2 =>
        dsimp only
        have g3f := get_integer_input_frame
          ("What is " ++ toString num1 ++ " + " ++ toString num2 ++ "? ") w2
        have g3t := get_integer_input_trace
          ("What is " ++ toString num1 ++ " + " ++ toString num2 ++ "? ") w2
        rcases h3 : get_integer_input
          ("What is " ++ toString num1 ++ " + " ++ toString num2 ++ "? ") w2 with ⟨r3, w3⟩
        rw [h3] at g3f g3t
        obtain ⟨s3, f3, -, -⟩ := g3f
        obtain ⟨c3, -⟩ := g3t
        have hfw3 : w3.failAt = w.failAt := f3.trans (f2.trans f1)
        have hsw3 : w.sleeps = [] → w3.sleeps = [] :=
          fun h => s3.trans (s2.trans (s1.trans h))
        have hcw3 : cleanupCount w3.trace = cleanupCount w.trace := c3.trans (c2.trans c1)
        cases r3 with
        | error e => exact ⟨hfw3, hsw3, hcw3⟩
        | ok user_answer =>
          dsimp only
          by_cases hca : user_answer = num1 + num2
          · rw [if_pos hca]
            have ff := flash_led_frame PIN_GREEN_LED LED_ON_DURATION
              (emit (emit w3 (.msg ("✅ Correct! " ++ toString num1 ++ " + "
                ++ toString num2 ++ " = " ++ toString (num1 + num2))))
                (.msg "🟢 Green LED ON"))
            rcases h4 : flash_led PIN_GREEN_LED LED_ON_DURATION
              (emit (emit w3 (.msg ("✅ Correct! " ++ toString num1 ++ " + "
                ++ toString num2 ++ " = " ++ toString (num1 + num2))))
                (.msg "🟢 Green LED ON")) with ⟨r4, w4⟩
            rw [h4] at ff
            obtain ⟨-, f4, s4, c4, -⟩ := ff
            simp only [emit_failAt, emit_sleeps, emit_trace] at f4 s4 c4
            have hfw4 : w4.failAt = w.failAt := f4.trans hfw3
            have hsw4 : w.sleeps = [] → w4.sleeps = [] := fun h => s4 (hsw3 h)
            have hcw4 : cleanupCount w4.trace = cleanupCount w.trace := by
              rw [c4]; simpa using hcw3
            cases r4 with
            | error e => exact ⟨hfw4, hsw4, hcw4⟩
            | ok u4 =>
              dsimp only
              have pf := pyInput_frame "Try another? (y/n): " (emit w4 (.msg ""))
              rcases h5 : pyInput "Try another? (y/n): " (emit w4 (.msg "")) with ⟨r5, w5⟩
              rw [h5] at pf
              obtain ⟨s5, f5, -, -, c5, -⟩ := pf
              simp only [emit_failAt, emit_sleeps, emit_trace] at f5 s5 c5
              have hfw5 : w5.failAt = w.failAt := f5.trans hfw4
              have hsw5 : w.sleeps = [] → w5.sleeps = [] := fun h => s5.trans (hsw4 h)
              have hcw5 : cleanupCount w5.trace = cleanupCount w.trace := by
                rw [c5]; simpa using hcw4
              cases r5 with
              | error e => exact ⟨hfw5, hsw5, hcw5⟩
              | ok again =>
                dsimp only
                by_cases hy : pyLower (pyStrip again) ≠ "y"
                · rw [if_pos hy]
                  exact ⟨hfw5, hsw5, hcw5⟩
                · rw [if_neg hy]
                  obtain ⟨ia, ib, ic⟩ := ih (emit w5 (.msg ""))
                  simp only [emit_failAt, emit_sleeps, emit_trace] at ia ib ic
                  refine ⟨ia.trans hfw5, fun h => ib (hsw5 h), ?_⟩
                  rw [ic]; simpa using hcw5
          · rw [if_neg hca]
            have ff := flash_led_frame PIN_RED_LED LED_ON_DURATION
              (emit (emit w3 (.msg ("❌ Wrong! " ++ toString num1 ++ " + "
                ++ toString num2 ++ " = " ++ toString (num1 + num2)
                ++ " (you said " ++ toString user_answer ++ ")")))
                (.msg "🔴 Red LED ON"))
            rcases h4 : flash_led PIN_RED_LED LED_ON_DURATION
              (emit (emit w3 (.msg ("❌ Wrong! " ++ toString num1 ++ " + "
                ++ toString num2 ++ " = " ++ toString (num1 + num2)
                ++ " (you said " ++ toString user_answer ++ ")")))
                (.msg "🔴 Red LED ON")) with ⟨r4, w4⟩
            rw [h4] at ff
            obtain ⟨-, f4, s4, c4, -⟩ := ff
            simp only [emit_failAt, emit_sleeps, emit_trace] at f4 s4 c4
            have hfw4 : w4.failAt = w.failAt := f4.trans hfw3
            have hsw4 : w.sleeps = [] → w4.sleeps = [] := fun h => s4 (hsw3 h)
            have hcw4 : cleanupCount w4.trace = cleanupCount w.trace := by
              rw [c4]; simpa using hcw3
            cases r4 with
            | error e => exact ⟨hfw4, hsw4, hcw4⟩
            | ok u4 =>
              dsimp only
              have pf := pyInput_frame "Try another? (y/n): " (emit w4 (.msg ""))
              rcases h5 : pyInput "Try another? (y/n): " (emit w4 (.msg "")) with ⟨r5, w5⟩
              rw [h5] at pf
              obtain ⟨s5, f5, -, -, c5, -⟩ := pf
              simp only [emit_failAt, emit_sleeps, emit_trace] at f5 s5 c5
              have hfw5 : w5.failAt = w.failAt := f5.trans hfw4
              have hsw5 : w.sleeps = [] → w5.sleeps = [] := fun h => s5.trans (hsw4 h)
              have hcw5 : cleanupCount w5.trace = cleanupCount w.trace := by
                rw [c5]; simpa using hcw4
              cases r5 with
              | error e => exact ⟨hfw5, hsw5, hcw5⟩
              | ok again =>
                dsimp only
                by_cases hy : pyLower (pyStrip again) ≠ "y"
                · rw [if_pos hy]
                  exact ⟨hfw5, hsw5, hcw5⟩
                · rw [if_neg hy]
                  obtain ⟨ia, ib, ic⟩ := ih (emit w5 (.msg ""))
                  simp only [emit_failAt, emit_sleeps, emit_trace] at ia ib ic
                  refine ⟨ia.trans hfw5, fun h => ib (hsw5 h), ?_⟩
                  rw [ic]; simpa using hcw5

theorem LED_ON_DURATION_nonneg : (0 : ℚ) ≤ LED_ON_DURATION := by
  norm_num [LED_ON_DURATION]

/-- A healthy, uninterrupted pulse succeeds and leaves its pin deasserted. -/
theorem flash_led_sets (pin : Nat) (d : ℚ) (w : World) (hf : w.failAt = none)
    (hs : w.sleeps = []) (hd : 0 ≤ d) :
    (flash_led pin d w).1 = .ok () ∧
    (flash_led pin d w).2.pins pin = .outp (some GPIO_HIGH) := by
  rw [flash_led_ok pin d w hf hs hd]
  simp

/-- Invariant of the quiz loop on a healthy, uninterrupted medium: if both
indicator lines start deasserted (`HIGH`), they are deasserted again whenever
the loop hands control back, however it exits. -/
theorem quiz_loop_pins (fuel : Nat) (w : World) (hf : w.failAt = none) (hs : w.sleeps = [])
    (hg : w.pins PIN_GREEN_LED = .outp (some GPIO_HIGH))
    (hr : w.pins PIN_RED_LED = .outp (some GPIO_HIGH)) :
    (quiz_loop fuel w).2.failAt = none ∧ (quiz_loop fuel w).2.sleeps = [] ∧
    (quiz_loop fuel w).2.pins PIN_GREEN_LED = .outp (some GPIO_HIGH) ∧
    (quiz_loop fuel w).2.pins PIN_RED_LED = .outp (some GPIO_HIGH) := by
  induction fuel generalizing w with
  | zero => simpa [quiz_loop] using ⟨hf, hs, hg, hr⟩
  | succ fuel ih =>
    simp only [quiz_loop]
    have g1f := get_integer_input_frame "Enter first number: " w
    rcases h1 : get_integer_input "Enter first number: " w with ⟨r1, w1⟩
    rw [h1] at g1f
    obtain ⟨s1, f1, -, p1⟩ := g1f
    have hf1 : w1.failAt = none := f1.trans hf
    have hs1 : w1.sleeps = [] := s1.trans hs
    have hg1 : w1.pins PIN_GREEN_LED = .outp (some GPIO_HIGH) := (congrFun p1 _).trans hg
    have hr1 : w1.pins PIN_RED_LED = .outp (some GPIO_HIGH) := (congrFun p1 _).trans hr
    cases r1 with
    | error e => exact ⟨hf1, hs1, hg1, hr1⟩
    | ok num1 =>
      dsimp only
      have g2f := get_integer_input_frame "Enter second number: " w1
      rcases h2 : get_integer_input "Enter second number: " w1 with ⟨r2, w2⟩
      rw [h2] at g2f
      obtain ⟨s2, f2, -, p2⟩ := g2f
      have hf2 : w2.failAt = none := f2.trans hf1
      have hs2 : w2.sleeps = [] := s2.trans hs1
      have hg2 : w2.pins PIN_GREEN_LED = .outp (some GPIO_HIGH) := (congrFun p2 _).trans hg1
      have hr2 : w2.pins PIN_RED_LED = .outp (some GPIO_HIGH) := (congrFun p2 _).trans hr1
      cases r2 with
      | error e => exact ⟨hf2, hs2, hg2, hr2⟩
      | ok num2 =>
        dsimp only
        have g3f := get_integer_input_frame
          ("What is " ++ toString num1 ++ " + " ++ toString num2 ++ "? ") w2
        rcases h3 : get_integer_input
          ("What is " ++ toString num1 ++ " + " ++ toString num2 ++ "? ") w2 with ⟨r3, w3⟩
        rw [h3] at g3f
        obtain ⟨s3, f3, -, p3⟩ := g3f
        have hf3 : w3.failAt = none := f3.trans hf2
        have hs3 : w3.sleeps = [] := s3.trans hs2
        have hg3 : w3.pins PIN_GREEN_LED = .outp (some GPIO_HIGH) := (congrFun p3 _).trans hg2
        have hr3 : w3.pins PIN_RED_LED = .outp (some GPIO_HIGH) := (congrFun p3 _).trans hr2
        cases r3 with
        | error e => exact ⟨hf3, hs3, hg3, hr3⟩
        | ok user_answer =>
          dsimp only
          by_cases hca : user_answer = num1 + num2
          · rw [if_pos hca]
            have ff := flash_led_frame PIN_GREEN_LED LED_ON_DURATION
              (emit (emit w3 (.msg ("✅ Correct! " ++ toString num1 ++ " + "
                ++ toString num2 ++ " = " ++ toString (num1 + num2))))
                (.msg "🟢 Green LED ON"))
            have fs := flash_led_sets PIN_GREEN_LED LED_ON_DURATION
              (emit (emit w3 (.msg ("✅ Correct! " ++ toString num1 ++ " + "
                ++ toString num2 ++ " = " ++ toString (num1 + num2))))
                (.msg "🟢 Green LED ON")) (by simpa using hf3) (by simpa using hs3)
                LED_ON_DURATION_nonneg
            rcases h4 : flash_led PIN_GREEN_LED LED_ON_DURATION
              (emit (emit w3 (.msg ("✅ Correct! " ++ toString num1 ++ " + "
                ++ toString num2 ++ " = " ++ toString (num1 + num2))))
                (.msg "🟢 Green LED ON")) with ⟨r4, w4⟩
            rw [h4] at ff fs
            obtain ⟨-, f4, s4, -, o4⟩ := ff
            obtain ⟨r4ok, g4⟩ := fs
            simp only [emit_failAt, emit_sleeps, emit_pins] at f4 s4 o4
            have hf4 : w4.failAt = none := f4.trans hf3
            have hs4 : w4.sleeps = [] := s4 hs3
            have hr4 : w4.pins PIN_RED_LED = .outp (some GPIO_HIGH) :=
              (o4 PIN_RED_LED (by decide)).trans hr3
            cases r4 with
            | error e => exact absurd r4ok (by simp)
            | ok u4 =>
              dsimp only
              have pf := pyInput_frame "Try another? (y/n): " (emit w4 (.msg ""))
              rcases h5 : pyInput "Try another? (y/n): " (emit w4 (.msg "")) with ⟨r5, w5⟩
              rw [h5] at pf
              obtain ⟨s5, f5, -, p5, -, -⟩ := pf
              simp only [emit_failAt, emit_sleeps, emit_pins] at f5 s5 p5
              have hf5 : w5.failAt = none := f5.trans hf4
              have hs5 : w5.sleeps = [] := s5.trans hs4
              have hg5 : w5.pins PIN_GREEN_LED = .outp (some GPIO_HIGH) :=
                (congrFun p5 _).trans g4
              have hr5 : w5.pins PIN_RED_LED = .outp (some GPIO_HIGH) :=
                (congrFun p5 _).trans hr4
              cases r5 with
              | error e => exact ⟨hf5, hs5, hg5, hr5⟩
              | ok again =>
                dsimp only
                by_cases hy : pyLower (pyStrip again) ≠ "y"
                · rw [if_pos hy]
                  exact ⟨hf5, hs5, hg5, hr5⟩
                · rw [if_neg hy]
                  exact ih (emit w5 (.msg "")) (by simpa using hf5) (by simpa using hs5)
                    (by simpa using hg5) (by simpa using hr5)
          · rw [if_neg hca]
            have ff := flash_led_frame PIN_RED_LED LED_ON_DURATION
              (emit (emit w3 (.msg ("❌ Wrong! " ++ toString num1 ++ " + "
                ++ toString num2 ++ " = " ++ toString (num1 + num2)
                ++ " (you said " ++ toString user_answer ++ ")")))
                (.msg "🔴 Red LED ON"))
            have fs := flash_led_sets PIN_RED_LED LED_ON_DURATION
              (emit (emit w3 (.msg ("❌ Wrong! " ++ toString num1 ++ " + "
                ++ toString num2 ++ " = " ++ toString (num1 + num2)
                ++ " (you said " ++ toString user_answer ++ ")")))
                (.msg "🔴 Red LED ON")) (by simpa using hf3) (by simpa using hs3)
                LED_ON_DURATION_nonneg
            rcases h4 : flash_led PIN_RED_LED LED_ON_DURATION
              (emit (emit w3 (.msg ("❌ Wrong! " ++ toString num1 ++ " + "
                ++ toString num2 ++ " = " ++ toString (num1 + num2)
                ++ " (you said " ++ toString user_answer ++ ")")))
                (.msg "🔴 Red LED ON")) with ⟨r4, w4⟩
            rw [h4] at ff fs
            obtain ⟨-, f4, s4, -, o4⟩ := ff
            obtain ⟨r4ok, g4⟩ := fs
            simp only [emit_failAt, emit_sleeps, emit_pins] at f4 s4 o4
            have hf4 : w4.failAt = none := f4.trans hf3
            have hs4 : w4.sleeps = [] := s4 hs3
            have hg4 : w4.pins PIN_GREEN_LED = .outp (some GPIO_HIGH) :=
              (o4 PIN_GREEN_LED (by decide)).trans hg3
            cases r4 with
            | error e => exact absurd r4ok (by simp)
            | ok u4 =>
              dsimp only
              have pf := pyInput_frame "Try another? (y/n): " (emit w4 (.msg ""))
              rcases h5 : pyInput "Try another? (y/n): " (emit w4 (.msg "")) with ⟨r5, w5⟩
              rw [h5] at pf
              obtain ⟨s5, f5, -, p5, -, -⟩ := pf
              simp only [emit_failAt, emit_sleeps, emit_pins] at f5 s5 p5
              have hf5 : w5.failAt = none := f5.trans hf4
              have hs5 : w5.sleeps = [] := s5.trans hs4
              have hg5 : w5.pins PIN_GREEN_LED = .outp (some GPIO_HIGH) :=
                (congrFun p5 _).trans hg4
              have hr5 : w5.pins PIN_RED_LED = .outp (some GPIO_HIGH) :=
                (congrFun p5 _).trans g4
              cases r5 with
              | error e => exact ⟨hf5, hs5, hg5, hr5⟩
              | ok again =>
                dsimp only
                by_cases hy : pyLower (pyStrip again) ≠ "y"
                · rw [if_pos hy]
                  exact ⟨hf5, hs5, hg5, hr5⟩
                · rw [if_neg hy]
                  exact ih (emit w5 (.msg "")) (by simpa using hf5) (by simpa using hs5)
                    (by simpa using hg5) (by simpa using hr5)

/-- Frame for `Gpio.setwarnings`. -/
theorem setwarnings_frame (w : World) :
    (Gpio.setwarnings w).2.stdin = w.stdin ∧ (Gpio.setwarnings w).2.sleeps = w.sleeps ∧
    (Gpio.setwarnings w).2.failAt = w.failAt ∧
    cleanupCount (Gpio.setwarnings w).2.trace = cleanupCount w.trace := by
  cases hfa : w.failAt with
  | none => simp [Gpio.setwarnings, gpioCall, hfa, emit]
  | some k =>
    by_cases hk : k = w.gpioCount <;> simp [Gpio.setwarnings, gpioCall, hfa, hk, emit]

/-- Frame for `Gpio.setmode`. -/
theorem setmode_frame (w : World) :
    (Gpio.setmode w).2.stdin = w.stdin ∧ (Gpio.setmode w).2.sleeps = w.sleeps ∧
    (Gpio.setmode w).2.failAt = w.failAt ∧
    cleanupCount (Gpio.setmode w).2.trace = cleanupCount w.trace := by
  cases hfa : w.failAt with
  | none => simp [Gpio.setmode, gpioCall, hfa, emit]
  | some k =>
    by_cases hk : k = w.gpioCount <;> simp [Gpio.setmode, gpioCall, hfa, hk, emit]

/-- Frame for `Gpio.setup`. -/
theorem setup_frame (pin : Nat) (w : World) :
    (Gpio.setup pin w).2.stdin = w.stdin ∧ (Gpio.setup pin w).2.sleeps = w.sleeps ∧
    (Gpio.setup pin w).2.failAt = w.failAt ∧
    cleanupCount (Gpio.setup pin w).2.trace = cleanupCount w.trace := by
  cases hfa : w.failAt with
  | none => simp [Gpio.setup, gpioCall, hfa, emit]
  | some k =>
    by_cases hk : k = w.gpioCount <;> simp [Gpio.setup, gpioCall, hfa, hk, emit]

/-- Frame for the setup half of `gpio_context`, fault or not: stdin, interrupt
schedule and fault point are untouched and no cleanup event is produced. -/
theorem gpio_setup_frame (w : World) :
    (gpio_setup w).2.stdin = w.stdin ∧ (gpio_setup w).2.sleeps = w.sleeps ∧
    (gpio_setup w).2.failAt = w.failAt ∧
    cleanupCount (gpio_setup w).2.trace = cleanupCount w.trace := by
  unfold gpio_setup
  have f1 := setwarnings_frame w
  rcases h1 : Gpio.setwarnings w with ⟨r1, w1⟩
  rw [h1] at f1
  obtain ⟨a1, b1, c1, d1⟩ := f1
  cases r1 with
  | error e => exact ⟨a1, b1, c1, d1⟩
  | ok u =>
    dsimp only
    have f2 := setmode_frame w1
    rcases h2 : Gpio.setmode w1 with ⟨r2, w2⟩
    rw [h2] at f2
    obtain ⟨a2, b2, c2, d2⟩ := f2
    cases r2 with
    | error e => exact ⟨a2.trans a1, b2.trans b1, c2.trans c1, d2.trans d1⟩
    | ok u =>
      dsimp only
      have f3 := setup_frame PIN_GREEN_LED w2
      rcases h3 : Gpio.setup PIN_GREEN_LED w2 with ⟨r3, w3⟩
      rw [h3] at f3
      obtain ⟨a3, b3, c3, d3⟩ := f3
      have a3' := a3.trans (a2.trans a1); have b3' := b3.trans (b2.trans b1)
      have c3' := c3.trans (c2.trans c1); have d3' := d3.trans (d2.trans d1)
      cases r3 with
      | error e => exact ⟨a3', b3', c3', d3'⟩
      | ok u =>
        dsimp only
        have f4 := setup_frame PIN_RED_LED w3
        rcases h4 : Gpio.setup PIN_RED_LED w3 with ⟨r4, w4⟩
        rw [h4] at f4
        obtain ⟨a4, b4, c4, d4⟩ := f4
        have a4' := a4.trans a3'; have b4' := b4.trans b3'
        have c4' := c4.trans c3'; have d4' := d4.trans d3'
        cases r4 with
        | error e => exact ⟨a4', b4', c4', d4'⟩
        | ok u =>
          dsimp only
          have f5 := output_frame PIN_GREEN_LED GPIO_HIGH w4
          rcases h5 : Gpio.output PIN_GREEN_LED GPIO_HIGH w4 with ⟨r5, w5⟩
          rw [h5] at f5
          obtain ⟨a5, b5, c5, d5, -⟩ := f5
          have a5' := a5.trans a4'; have b5' := b5.trans b4'
          have c5' := c5.trans c4'; have d5' := d5.trans d4'
          cases r5 with
          | error e => exact ⟨a5', b5', c5', d5'⟩
          | ok u =>
            dsimp only
            have f6 := output_frame PIN_RED_LED GPIO_HIGH w5
            rcases h6 : Gpio.output PIN_RED_LED GPIO_HIGH w5 with ⟨r6, w6⟩
            rw [h6] at f6
            obtain ⟨a6, b6, c6, d6, -⟩ := f6
            exact ⟨a6.trans a5', b6.trans b5', c6.trans c5', d6.trans d5'⟩

/-- The `except KeyboardInterrupt` wrapper changes no bookkeeping: it only
converts an interrupt into a normal return plus a goodbye message. -/
theorem quiz_body_frame (fuel : Nat) (w : World) :
    (quiz_body fuel w).2.failAt = w.failAt ∧
    (w.sleeps = [] → (quiz_body fuel w).2.sleeps = []) ∧
    cleanupCount (quiz_body fuel w).2.trace = cleanupCount w.trace := by
  unfold quiz_body
  have lf := quiz_loop_frame fuel w
  rcases hql : quiz_loop fuel w with ⟨rl, w2⟩
  rw [hql] at lf
  obtain ⟨a, b, c⟩ := lf
  cases rl with
  | ok u => exact ⟨a, b, c⟩
  | error e =>
    cases e with
    | keyboardInterrupt =>
      dsimp only
      exact ⟨a, b, by simpa using c⟩
    | valueError => exact ⟨a, b, c⟩
    | eofError => exact ⟨a, b, c⟩
    | runtimeError => exact ⟨a, b, c⟩
    | systemExit n => exact ⟨a, b, c⟩
    | fuelOut => exact ⟨a, b, c⟩

/-- Release runs exactly once per acquisition: over the whole of `run_quiz`,
exactly one cleanup invocation is recorded, on every exit path — normal
decline, interrupt, end of stream, fault during setup or during a round, and
even when the fuel sentinel fires. -/
theorem run_quiz_cleanupCount (fuel : Nat) (w : World) :
    cleanupCount (run_quiz fuel w).2.trace = cleanupCount w.trace + 1 := by
  unfold run_quiz gpio_context
  have hb : cleanupCount (banner w).trace = cleanupCount w.trace := by
    rw [banner_eq]; simp
  have sf := gpio_setup_frame (banner w)
  rcases hgs : gpio_setup (banner w) with ⟨rs, w1⟩
  rw [hgs] at sf
  obtain ⟨-, -, -, d1⟩ := sf
  cases rs with
  | error e =>
    dsimp only
    have ct := cleanup_trace w1
    rcases hcl : Gpio.cleanup w1 with ⟨rc, w2⟩
    rw [hcl] at ct
    cases rc <;> simp [ct, d1, hb]
  | ok u =>
    dsimp only
    have bf := quiz_body_frame fuel w1
    rcases hqb : quiz_body fuel w1 with ⟨rb, w2⟩
    rw [hqb] at bf
    obtain ⟨-, -, c2⟩ := bf
    have ct := cleanup_trace w2
    rcases hcl : Gpio.cleanup w2 with ⟨rc, w3⟩
    rw [hcl] at ct
    cases rc <;> simp [ct, c2, d1, hb]

/-- One read that parses: the prompt is printed, the line consumed, the parsed
integer returned at once. -/
theorem gii_line_ok (p s : String) (n : Int) (rest : List InEvent) (w : World)
    (hw : w.stdin = .line s :: rest) (hn : pyInt s = some n) :
    get_integer_input p w
      = (.ok n, { w with stdin := rest, trace := w.trace ++ [.prompt p] }) := by
  unfold get_integer_input
  rw [hw]
  simp [gii_go, hn, emit]

theorem LED_ON_DURATION_not_neg : ¬LED_ON_DURATION < 0 := by
  norm_num [LED_ON_DURATION]

/-- Symbolic evaluation of one full round on a healthy, uninterrupted medium
when the claimed sum is right: the three reads, the success report, a green
pulse, then the continue prompt deciding between stopping and a further
iteration. -/
theorem quiz_round_correct (fuel : Nat) (w : World) (sa sb sc s : String)
    (rest : List InEvent) (a b c : Int)
    (ha : pyInt sa = some a) (hb : pyInt sb = some b) (hc : pyInt sc = some c)
    (hw : w.stdin = [.line sa, .line sb, .line sc, .line s] ++ rest)
    (hf : w.failAt = none) (hs : w.sleeps = []) (hcc : c = a + b) :
    quiz_loop (fuel + 1) w =
      (let wR : World := { w with
        stdin := rest,
        gpioCount := w.gpioCount + 1 + 1,
        pins := fun p => if p = PIN_GREEN_LED then .outp (some GPIO_HIGH)
                else if p = PIN_GREEN_LED then .outp (some GPIO_LOW) else w.pins p,
        trace := w.trace ++ [.prompt "Enter first number: ", .prompt "Enter second number: ",
          .prompt ("What is " ++ toString a ++ " + " ++ toString b ++ "? "),
          .msg ("✅ Correct! " ++ toString a ++ " + " ++ toString b ++ " = " ++ toString (a + b)),
          .msg "🟢 Green LED ON",
          .write PIN_GREEN_LED GPIO_LOW, .sleep LED_ON_DURATION, .write PIN_GREEN_LED GPIO_HIGH,
          .msg "", .prompt "Try another? (y/n): "] }
      if pyLower (pyStrip s) ≠ "y" then (.ok (), wR)
      else quiz_loop fuel (emit wR (.msg ""))) := by
  subst hcc
  rcases w with ⟨stdin, sleeps, failAt, gcount, pins, trace⟩
  simp only at hw hf hs
  subst hw; subst hf; subst hs
  simp [quiz_loop, get_integer_input, gii_go, ha, hb, hc, flash_led, Gpio.output, gpioCall,
    timeSleep, emit, pyInput, LED_ON_DURATION_not_neg]

/-- Symbolic evaluation of one full round on a healthy, uninterrupted medium
when the claimed sum is wrong: the three reads, the failure report, a red
pulse, then the continue prompt. -/
theorem quiz_round_wrong (fuel : Nat) (w : World) (sa sb sc s : String)
    (rest : List InEvent) (a b c : Int)
    (ha : pyInt sa = some a) (hb : pyInt sb = some b) (hc : pyInt sc = some c)
    (hw : w.stdin = [.line sa, .line sb, .line sc, .line s] ++ rest)
    (hf : w.failAt = none) (hs : w.sleeps = []) (hcc : c ≠ a + b) :
    quiz_loop (fuel + 1) w =
      (let wR : World := { w with
        stdin := rest,
        gpioCount := w.gpioCount + 1 + 1,
        pins := fun p => if p = PIN_RED_LED then .outp (some GPIO_HIGH)
                else if p = PIN_RED_LED then .outp (some GPIO_LOW) else w.pins p,
        trace := w.trace ++ [.prompt "Enter first number: ", .prompt "Enter second number: ",
          .prompt ("What is " ++ toString a ++ " + " ++ toString b ++ "? "),
          .msg ("❌ Wrong! " ++ toString a ++ " + " ++ toString b ++ " = " ++ toString (a + b)
                ++ " (you said " ++ toString c ++ ")"),
          .msg "🔴 Red LED ON",
          .write PIN_RED_LED GPIO_LOW, .sleep LED_ON_DURATION, .write PIN_RED_LED GPIO_HIGH,
          .msg "", .prompt "Try another? (y/n): "] }
      if pyLower (pyStrip s) ≠ "y" then (.ok (), wR)
      else quiz_loop fuel (emit wR (.msg ""))) := by
  rcases w with ⟨stdin, sleeps, failAt, gcount, pins, trace⟩
  simp only at hw hf hs
  subst hw; subst hf; subst hs
  simp [quiz_loop, get_integer_input, gii_go, ha, hb, hc, flash_led, Gpio.output, gpioCall,
    timeSleep, emit, pyInput, LED_ON_DURATION_not_neg, hcc]

/-- The process-level wrapper only maps the outcome to a status code; the
final world is that of `run_quiz`. -/
theorem pyMain_snd (fuel : Nat) (w : World) : (pyMain fuel w).2 = (run_quiz fuel w).2 := by
  unfold pyMain
  rcases h : run_quiz fuel w with ⟨r, w1⟩
  cases r with
  | ok u => rfl
  | error e => cases e <;> rfl

/-- The exit status as a function of the `run_quiz` outcome: 0 on return, the
carried status on `SystemExit`, 1 on any other uncaught exception. -/
theorem pyMain_code (fuel : Nat) (w : World) :
    (pyMain fuel w).1 = (match (run_quiz fuel w).1 with
      | .ok _ => 0
      | .error (.systemExit n) => n
      | .error _ => 1) := by
  unfold pyMain
  rcases h : run_quiz fuel w with ⟨r, w1⟩
  cases r with
  | ok u => rfl
  | error e => cases e <;> rfl

/-- On a healthy medium the outcome of `run_quiz` is the outcome of the quiz
loop (run from the world produced by the banner and the GPIO setup), with a
`KeyboardInterrupt` — and only it — converted into a normal return: the
`finally` cleanup succeeds and never alters the outcome. -/
theorem run_quiz_fst (fuel : Nat) (w : World) (hf : w.failAt = none) :
    (run_quiz fuel w).1
      = (match (quiz_loop fuel (gpio_setup (banner w)).2).1 with
         | .error .keyboardInterrupt => .ok ()
         | r => r) := by
  have hfb : (banner w).failAt = none := by rw [banner_eq]; exact hf
  unfold run_quiz gpio_context quiz_body
  rw [gpio_setup_ok (banner w) hfb]
  dsimp only
  have lfr := quiz_loop_frame fuel ((gpio_setup (banner w)).2)
  rw [gpio_setup_ok (banner w) hfb] at lfr
  rcases hql : quiz_loop fuel ((gpio_setup (banner w)).2) with ⟨rl, w2⟩
  rw [gpio_setup_ok (banner w) hfb] at hql
  rw [hql] at lfr
  rw [hql]
  obtain ⟨f2, -, -⟩ := lfr
  have hfw2 : w2.failAt = none := by
    rw [f2]; simp [banner_eq, hf]
  cases rl with
  | ok u =>
    dsimp only
    rw [cleanup_ok w2 hfw2]
  | error e =>
    cases e with
    | keyboardInterrupt =>
      dsimp only
      rw [cleanup_ok (emit w2 (.msg "\n\n👋 Quiz ended. Goodbye!")) (by simpa using hfw2)]
    | valueError => dsimp only; rw [cleanup_ok w2 hfw2]
    | eofError => dsimp only; rw [cleanup_ok w2 hfw2]
    | runtimeError => dsimp only; rw [cleanup_ok w2 hfw2]
    | systemExit n => dsimp only; rw [cleanup_ok w2 hfw2]
    | fuelOut => dsimp only; rw [cleanup_ok w2 hfw2]

/-! ## Claims -/

/-- C1: in a round with operands `a`, `b` and claimed sum `c` (read from text
the integer reader accepts), the success (green) line is pulsed exactly once
iff `c = a + b`, otherwise the failure (red) line is pulsed exactly once; in
every round exactly one of the two lines is pulsed. -/
theorem C1_success_iff_correct_sum (fuel : Nat) (w : World) (sa sb sc s : String)
    (rest : List InEvent) (a b c : Int)
    (ha : pyInt sa = some a) (hb : pyInt sb = some b) (hc : pyInt sc = some c)
    (hw : w.stdin = [.line sa, .line sb, .line sc, .line s] ++ rest)
    (hf : w.failAt = none) (hs : w.sleeps = []) (ht : w.trace = [])
    (hstop : pyLower (pyStrip s) ≠ "y") :
    (quiz_loop (fuel + 1) w).1 = .ok () ∧
    assertsOf PIN_GREEN_LED (quiz_loop (fuel + 1) w).2.trace = (if c = a + b then 1 else 0) ∧
    assertsOf PIN_RED_LED (quiz_loop (fuel + 1) w).2.trace = (if c = a + b then 0 else 1) := by
  by_cases hcc : c = a + b
  · rw [quiz_round_correct fuel w sa sb sc s rest a b c ha hb hc hw hf hs hcc]
    simp [hstop, ht, hcc, PIN_GREEN_LED, PIN_RED_LED, GPIO_LOW, GPIO_HIGH, assertsOf]
  · rw [quiz_round_wrong fuel w sa sb sc s rest a b c ha hb hc hw hf hs hcc]
    simp [hstop, ht, hcc, PIN_GREEN_LED, PIN_RED_LED, GPIO_LOW, GPIO_HIGH, assertsOf]

/-- C1 witness: the round 3 + 4 answered 7 pulses the green line once and the
red line not at all. -/
theorem C1_success_iff_correct_sum_witness :
    (quiz_loop 1 (mkWorld [.line "3", .line "4", .line "7", .line "n"])).1 = .ok () ∧
    assertsOf PIN_GREEN_LED
      (quiz_loop 1 (mkWorld [.line "3", .line "4", .line "7", .line "n"])).2.trace = 1 ∧
    assertsOf PIN_RED_LED
      (quiz_loop 1 (mkWorld [.line "3", .line "4", .line "7", .line "n"])).2.trace = 0 := by
  have h := C1_success_iff_correct_sum 0 (mkWorld [.line "3", .line "4", .line "7", .line "n"])
    "3" "4" "7" "n" [] 3 4 7 (by decide) (by decide) (by decide) rfl rfl rfl rfl (by decide)
  simpa using h

/-- C4: a pulse with any non-negative duration (no fault, no interrupt) first
asserts the line (writes `LOW`), blocks for the duration, then deasserts it
(writes `HIGH`); at duration zero both write events still occur in that order
with a zero dwell. -/
theorem C4_pulse_assert_then_deassert (pin : Nat) (d : ℚ) (w : World)
    (hd : 0 ≤ d) (hf : w.failAt = none) (hs : w.sleeps = []) :
    (flash_led pin d w).1 = .ok () ∧
    (flash_led pin d w).2.trace
      = w.trace ++ [.write pin GPIO_LOW, .sleep d, .write pin GPIO_HIGH] := by
  rw [flash_led_ok pin d w hf hs hd]
  simp

/-- C4 witness: a zero-duration pulse of the green line performs assert then
deassert with no dwell. -/
theorem C4_pulse_assert_then_deassert_witness :
    (flash_led PIN_GREEN_LED 0 (mkWorld [])).1 = .ok () ∧
    (flash_led PIN_GREEN_LED 0 (mkWorld [])).2.trace
      = [.write PIN_GREEN_LED GPIO_LOW, .sleep 0, .write PIN_GREEN_LED GPIO_HIGH] := by
  have h := C4_pulse_assert_then_deassert PIN_GREEN_LED 0 (mkWorld []) le_rfl rfl rfl
  simpa [mkWorld] using h

/-- C8: at the continue prompt, any response whose stripped, lowered form is
not the affirmative token `y` ends the loop (normal return, remaining input
untouched); an affirmative response starts another round (the loop recurses on
the remaining input). -/
theorem C8_continue_prompt_decides (fuel : Nat) (w : World) (sa sb sc s : String)
    (rest : List InEvent) (a b c : Int)
    (ha : pyInt sa = some a) (hb : pyInt sb = some b) (hc : pyInt sc = some c)
    (hw : w.stdin = [.line sa, .line sb, .line sc, .line s] ++ rest)
    (hf : w.failAt = none) (hs : w.sleeps = []) :
    (pyLower (pyStrip s) ≠ "y" →
      (quiz_loop (fuel + 1) w).1 = .ok () ∧ (quiz_loop (fuel + 1) w).2.stdin = rest) ∧
    (pyLower (pyStrip s) = "y" →
      ∃ w', quiz_loop (fuel + 1) w = quiz_loop fuel w' ∧ w'.stdin = rest) := by
  by_cases hcc : c = a + b
  · rw [quiz_round_correct fuel w sa sb sc s rest a b c ha hb hc hw hf hs hcc]
    dsimp only
    constructor
    · intro hy
      rw [if_pos hy]
      exact ⟨rfl, by simp⟩
    · intro hy
      rw [if_neg (not_not_intro hy)]
      exact ⟨_, rfl, by simp⟩
  · rw [quiz_round_wrong fuel w sa sb sc s rest a b c ha hb hc hw hf hs hcc]
    dsimp only
    constructor
    · intro hy
      rw [if_pos hy]
      exact ⟨rfl, by simp⟩
    · intro hy
      rw [if_neg (not_not_intro hy)]
      exact ⟨_, rfl, by simp⟩

/-- C8 witness: after the round 2 + 2 answered 5, the response `n` ends the
loop with the remaining input untouched. -/
theorem C8_continue_prompt_decides_witness :
    (quiz_loop 1 (mkWorld [.line "2", .line "2", .line "5", .line "n"])).1 = .ok () ∧
    (quiz_loop 1 (mkWorld [.line "2", .line "2", .line "5", .line "n"])).2.stdin = [] := by
  have h := C8_continue_prompt_decides 0
    (mkWorld [.line "2", .line "2", .line "5", .line "n"]) "2" "2" "5" "n" [] 2 2 5
    (by decide) (by decide) (by decide) rfl rfl rfl
  exact h.1 (by decide)

/-- C9: pulsing one line writes only to that line's pin: every other pin —
in particular the other indicator — keeps its state, whatever happens during
the pulse. -/
theorem C9_pulse_touches_only_its_pin (pin : Nat) (d : ℚ) (w : World) (q : Nat)
    (hq : q ≠ pin) :
    (flash_led pin d w).2.pins q = w.pins q :=
  (flash_led_frame pin d w).2.2.2.2 q hq

/-- C9 witness: a green pulse leaves the red pin exactly as it was. -/
theorem C9_pulse_touches_only_its_pin_witness :
    (flash_led PIN_GREEN_LED LED_ON_DURATION (mkWorld [])).2.pins PIN_RED_LED
      = (mkWorld []).pins PIN_RED_LED :=
  C9_pulse_touches_only_its_pin PIN_GREEN_LED LED_ON_DURATION (mkWorld []) PIN_RED_LED
    (by decide)

/-- If the indicator pins are deasserted and no cleanup was recorded yet, then
any cleanup event present after running `Gpio.cleanup` snapshots two
deasserted lines. -/
theorem cleanup_mem_snapshot (wb : World) (g r : PinState) (hfb : wb.failAt = none)
    (hg : wb.pins PIN_GREEN_LED = .outp (some GPIO_HIGH))
    (hr : wb.pins PIN_RED_LED = .outp (some GPIO_HIGH))
    (hc0 : cleanupCount wb.trace = 0)
    (hmem : Event.cleanup g r ∈ (Gpio.cleanup wb).2.trace) :
    g = .outp (some GPIO_HIGH) ∧ r = .outp (some GPIO_HIGH) := by
  rw [cleanup_ok wb hfb] at hmem
  dsimp only at hmem
  rw [hg, hr] at hmem
  rcases List.mem_append.mp hmem with h | h
  · exfalso
    have hno := List.countP_eq_zero.mp hc0 _ h
    simp at hno
  · simp only [List.mem_singleton, Event.cleanup.injEq] at h
    exact h

/-- C2 counterexample: on the exit path where the user interrupts during the
pulse (operands 3 and 4, correct answer 7, interrupt mid-sleep), the run still
ends normally, but the single release event records the green line ASSERTED
(`LOW`) immediately before release — the claimed invariant fails on this exit
path. -/
theorem C2_deassert_before_release_counterexample :
    (run_quiz 1 { mkWorld [.line "3", .line "4", .line "7"] with sleeps := [true] }).1
      = .ok () ∧
    Event.cleanup (.outp (some GPIO_LOW)) (.outp (some GPIO_HIGH))
      ∈ (run_quiz 1 { mkWorld [.line "3", .line "4", .line "7"] with
          sleeps := [true] }).2.trace := by
  exact ⟨rfl, by decide⟩

/-- C2 amended: both indicator lines are deasserted (driven `HIGH`) immediately
after `initialize()` completes; and on every exit path on which no pulse is cut
short (healthy medium, no interrupt arriving mid-sleep), both lines are
deasserted immediately before `release()` runs — an interrupt or fault during a
pulse instead leaves the pulsed line asserted until release resets the medium. -/
theorem C2_amended_deassert_at_boundaries (fuel : Nat) (w : World) (hf : w.failAt = none)
    (hs : w.sleeps = []) (ht : w.trace = []) :
    ((gpio_setup w).2.pins PIN_GREEN_LED = .outp (some GPIO_HIGH) ∧
     (gpio_setup w).2.pins PIN_RED_LED = .outp (some GPIO_HIGH)) ∧
    (∀ g r, Event.cleanup g r ∈ (run_quiz fuel w).2.trace →
      g = .outp (some GPIO_HIGH) ∧ r = .outp (some GPIO_HIGH)) := by
  have hfb : (banner w).failAt = none := by rw [banner_eq]; exact hf
  refine ⟨?_, ?_⟩
  · rw [gpio_setup_ok w hf]
    constructor <;> simp [PIN_GREEN_LED, PIN_RED_LED]
  · intro g r hmem
    unfold run_quiz gpio_context quiz_body at hmem
    have hgseq := gpio_setup_ok (banner w) hfb
    rcases hgs : gpio_setup (banner w) with ⟨rs, W1⟩
    rw [hgs] at hmem hgseq
    obtain ⟨hrs, hW1⟩ := Prod.mk.inj hgseq
    subst hrs
    dsimp only at hmem
    have hfW1 : W1.failAt = none := by rw [hW1]; simp [banner_eq, hf]
    have hsW1 : W1.sleeps = [] := by rw [hW1]; simp [banner_eq, hs]
    have hgW1 : W1.pins PIN_GREEN_LED = .outp (some GPIO_HIGH) := by
      rw [hW1]; simp [PIN_GREEN_LED, PIN_RED_LED]
    have hrW1 : W1.pins PIN_RED_LED = .outp (some GPIO_HIGH) := by
      rw [hW1]; simp [PIN_GREEN_LED, PIN_RED_LED]
    have hc0W1 : cleanupCount W1.trace = 0 := by
      rw [hW1]; simp [banner_eq, ht]
    obtain ⟨hf2, hs2, hg2, hr2⟩ := quiz_loop_pins fuel W1 hfW1 hsW1 hgW1 hrW1
    obtain ⟨-, -, hcl⟩ := quiz_loop_frame fuel W1
    rcases hql : quiz_loop fuel W1 with ⟨rl, w2⟩
    rw [hql] at hf2 hs2 hg2 hr2 hcl hmem
    have hc02 : cleanupCount w2.trace = 0 := by rw [hcl]; exact hc0W1
    cases rl with
    | ok u =>
      dsimp only at hmem
      revert hmem
      rcases hcl2 : Gpio.cleanup w2 with ⟨rc, w3⟩
      cases rc <;> (
        dsimp only
        intro hmem
        exact cleanup_mem_snapshot w2 g r hf2 hg2 hr2 hc02 (by rw [hcl2]; exact hmem))
    | error e =>
      cases e with
      | keyboardInterrupt =>
        dsimp only at hmem
        revert hmem
        rcases hcl2 : Gpio.cleanup (emit w2 (.msg "\n\n👋 Quiz ended. Goodbye!")) with ⟨rc, w3⟩
        cases rc <;> (
          dsimp only
          intro hmem
          exact cleanup_mem_snapshot (emit w2 (.msg "\n\n👋 Quiz ended. Goodbye!")) g r
            (by simpa using hf2) (by simpa using hg2) (by simpa using hr2)
            (by simp [hc02]) (by rw [hcl2]; exact hmem))
      | valueError =>
        dsimp only at hmem
        revert hmem
        rcases hcl2 : Gpio.cleanup w2 with ⟨rc, w3⟩
        cases rc <;> (
          dsimp only
          intro hmem
          exact cleanup_mem_snapshot w2 g r hf2 hg2 hr2 hc02 (by rw [hcl2]; exact hmem))
      | eofError =>
        dsimp only at hmem
        revert hmem
        rcases hcl2 : Gpio.cleanup w2 with ⟨rc, w3⟩
        cases rc <;> (
          dsimp only
          intro hmem
          exact cleanup_mem_snapshot w2 g r hf2 hg2 hr2 hc02 (by rw [hcl2]; exact hmem))
      | runtimeError =>
        dsimp only at hmem
        revert hmem
        rcases hcl2 : Gpio.cleanup w2 with ⟨rc, w3⟩
        cases rc <;> (
          dsimp only
          intro hmem
          exact cleanup_mem_snapshot w2 g r hf2 hg2 hr2 hc02 (by rw [hcl2]; exact hmem))
      | systemExit n =>
        dsimp only at hmem
        revert hmem
        rcases hcl2 : Gpio.cleanup w2 with ⟨rc, w3⟩
        cases rc <;> (
          dsimp only
          intro hmem
          exact cleanup_mem_snapshot w2 g r hf2 hg2 hr2 hc02 (by rw [hcl2]; exact hmem))
      | fuelOut =>
        dsimp only at hmem
        revert hmem
        rcases hcl2 : Gpio.cleanup w2 with ⟨rc, w3⟩
        cases rc <;> (
          dsimp only
          intro hmem
          exact cleanup_mem_snapshot w2 g r hf2 hg2 hr2 hc02 (by rw [hcl2]; exact hmem))

/-- C2 amended witness: a declined round from a fresh world. -/
theorem C2_amended_deassert_at_boundaries_witness :
    ((gpio_setup (mkWorld [.line "1", .line "2", .line "3", .line "n"])).2.pins PIN_GREEN_LED
        = .outp (some GPIO_HIGH) ∧
     (gpio_setup (mkWorld [.line "1", .line "2", .line "3", .line "n"])).2.pins PIN_RED_LED
        = .outp (some GPIO_HIGH)) ∧
    (∀ g r, Event.cleanup g r
        ∈ (run_quiz 1 (mkWorld [.line "1", .line "2", .line "3", .line "n"])).2.trace →
      g = .outp (some GPIO_HIGH) ∧ r = .outp (some GPIO_HIGH)) :=
  C2_amended_deassert_at_boundaries 1 (mkWorld [.line "1", .line "2", .line "3", .line "n"])
    rfl rfl rfl

/-- C3 counterexample: with the round 3 + 4 answered 7 and declined — a normal
exit — a fault injected at the release call itself (the 9th GPIO call, index
8) propagates out of `run_quiz` and turns the exit status into 1, masking the
normal exit reason; the same script with a healthy medium exits 0. -/
theorem C3_release_failure_masks_counterexample :
    (run_quiz 3 { mkWorld [.line "3", .line "4", .line "7", .line "n"] with
        failAt := some 8 }).1 = .error .runtimeError ∧
    (pyMain 3 { mkWorld [.line "3", .line "4", .line "7", .line "n"] with
        failAt := some 8 }).1 = 1 ∧
    (pyMain 3 (mkWorld [.line "3", .line "4", .line "7", .line "n"])).1 = 0 := by
  decide

/-- C3 amended: `release()` runs exactly once per `initialize()`, on every exit
path of the owning scope — normal loop end, user interrupt, end-of-input exit,
or unexpected fault.  (The further original clause that a release failure is
never propagated does not hold: the release call is unguarded, so its failure
propagates and replaces the original exit reason.) -/
theorem C3_amended_release_exactly_once (fuel : Nat) (w : World) :
    cleanupCount (run_quiz fuel w).2.trace = cleanupCount w.trace + 1 :=
  run_quiz_cleanupCount fuel w

/-- C5: on a healthy medium the process exit status is 0 whenever the run ends
normally — the quiz loop returns (user declined) or ends by user interrupt —
and 1 whenever the input stream ends at a prompt (`sys.exit(1)` at an integer
prompt, or an uncaught `EOFError` at the continue prompt), and in the
end-of-stream case release has still been performed exactly once before the
process ends. -/
theorem C5_exit_codes (fuel : Nat) (w : World) (hf : w.failAt = none) :
    ((quiz_loop fuel (gpio_setup (banner w)).2).1 = .ok () → (pyMain fuel w).1 = 0) ∧
    ((quiz_loop fuel (gpio_setup (banner w)).2).1 = .error .keyboardInterrupt →
      (pyMain fuel w).1 = 0) ∧
    (((quiz_loop fuel (gpio_setup (banner w)).2).1 = .error (.systemExit 1) ∨
      (quiz_loop fuel (gpio_setup (banner w)).2).1 = .error .eofError) →
      (pyMain fuel w).1 = 1 ∧
      cleanupCount (pyMain fuel w).2.trace = cleanupCount w.trace + 1) := by
  have hq := run_quiz_fst fuel w hf
  refine ⟨?_, ?_, ?_⟩
  · intro h; rw [pyMain_code, hq, h]
  · intro h; rw [pyMain_code, hq, h]
  · intro h
    refine ⟨?_, ?_⟩
    · rcases h with h | h <;> rw [pyMain_code, hq, h]
    · rw [pyMain_snd]; exact run_quiz_cleanupCount fuel w

/-- C5 witness: a stream that is already closed at the first prompt makes the
process exit 1, after exactly one release. -/
theorem C5_exit_codes_witness :
    (pyMain 1 (mkWorld [])).1 = 1 ∧
    cleanupCount (pyMain 1 (mkWorld [])).2.trace = 1 := by
  have h := (C5_exit_codes 1 (mkWorld []) rfl).2.2 (Or.inl (by decide))
  simpa using h

/-- C7: a fault while configuring the output medium (any of the six GPIO calls
of initialization) is fatal: the `RuntimeError` propagates out of `run_quiz`
unchanged (no retry), the process exits 1, and no quiz round runs — not a
single prompt is ever shown. -/
theorem C7_init_fault_is_fatal (fuel : Nat) (w : World) (k : Nat)
    (hk : w.failAt = some k) (hk5 : k ≤ 5) (hg : w.gpioCount = 0) (ht : w.trace = []) :
    (run_quiz fuel w).1 = .error .runtimeError ∧
    (pyMain fuel w).1 = 1 ∧
    promptCount (run_quiz fuel w).2.trace = 0 := by
  have key : (run_quiz fuel w).1 = .error .runtimeError ∧
      promptCount (run_quiz fuel w).2.trace = 0 := by
    unfold run_quiz gpio_context
    interval_cases k <;>
      simp [gpio_setup, Gpio.setwarnings, Gpio.setmode, Gpio.setup, Gpio.output, Gpio.cleanup,
        gpioCall, emit, banner, hk, hg, ht, PIN_GREEN_LED, PIN_RED_LED]
  exact ⟨key.1, by rw [pyMain_code, key.1], key.2⟩

/-- C7 witness: a fault at the third GPIO call (configuring the green pin). -/
theorem C7_init_fault_is_fatal_witness :
    (run_quiz 1 { mkWorld [.line "3"] with failAt := some 2 }).1 = .error .runtimeError ∧
    (pyMain 1 { mkWorld [.line "3"] with failAt := some 2 }).1 = 1 ∧
    promptCount (run_quiz 1 { mkWorld [.line "3"] with failAt := some 2 }).2.trace = 0 :=
  C7_init_fault_is_fatal 1 { mkWorld [.line "3"] with failAt := some 2 } 2
    rfl (by norm_num) rfl rfl

/-- C10: even when initialization itself raises partway through configuring the
lines (fault at any of the six setup calls), the release operation still
executes exactly once, because the guaranteed-cleanup region (`try`/`finally`)
encloses the setup steps as well as the quiz body. -/
theorem C10_cleanup_runs_despite_setup_fault (fuel : Nat) (w : World) (k : Nat)
    (hk : w.failAt = some k) (hk5 : k ≤ 5) (hg : w.gpioCount = 0) :
    (gpio_setup (banner w)).1 = .error .runtimeError ∧
    cleanupCount (run_quiz fuel w).2.trace = cleanupCount w.trace + 1 := by
  refine ⟨?_, run_quiz_cleanupCount fuel w⟩
  rw [banner_eq]
  interval_cases k <;>
    simp [gpio_setup, Gpio.setwarnings, Gpio.setmode, Gpio.setup, Gpio.output, gpioCall,
      emit, hk, hg]

/-- C10 witness: fault at the third GPIO call; release still recorded once. -/
theorem C10_cleanup_runs_despite_setup_fault_witness :
    (gpio_setup (banner { mkWorld [] with failAt := some 2 })).1 = .error .runtimeError ∧
    cleanupCount (run_quiz 1 { mkWorld [] with failAt := some 2 }).2.trace = 1 := by
  have h := C10_cleanup_runs_despite_setup_fault 1 { mkWorld [] with failAt := some 2 } 2
    rfl (by norm_num) rfl
  simpa using h

/-- C6: non-integer text at an input prompt is recovered locally: a run whose
input starts with any finite sequence of invalid lines behaves exactly like
the run on the remaining input, except that one re-prompt and one error
message are printed per invalid line — the reader neither terminates nor ever
produces a pin write. -/
theorem C6_invalid_input_recovers (p : String) (bad : List String) (l : List InEvent)
    (w : World) (hbad : ∀ s ∈ bad, pyInt s = none)
    (hw : w.stdin = bad.map InEvent.line ++ l) :
    get_integer_input p w
      = get_integer_input p { w with
          stdin := l,
          trace := w.trace ++ (List.replicate bad.length
            [Event.prompt p, Event.msg "❌ Please enter a valid integer."]).flatten } ∧
    writesIn (get_integer_input p w).2.trace = writesIn w.trace := by
  refine ⟨?_, (get_integer_input_trace p w).2⟩
  revert hbad hw
  induction bad generalizing w with
  | nil =>
    intro hbad hw
    simp only [List.map_nil, List.nil_append] at hw
    rw [← hw]
    simp
  | cons s bs ih =>
    intro hbad hw
    have hs1 : pyInt s = none := hbad s (List.mem_cons_self s bs)
    have hbs : ∀ t ∈ bs, pyInt t = none := fun t htm => hbad t (List.mem_cons_of_mem _ htm)
    have step : get_integer_input p w
        = get_integer_input p { w with
            stdin := bs.map InEvent.line ++ l,
            trace := w.trace ++ [Event.prompt p,
              Event.msg "❌ Please enter a valid integer."] } := by
      unfold get_integer_input
      rw [hw]
      simp [gii_go, hs1, emit]
    rw [step, ih _ hbs rfl]
    congr 1
    simp [List.replicate_succ]

/-- C6 witness: the three canonical invalid inputs are retried and the valid
value then read, with no write ever produced. -/
theorem C6_invalid_input_recovers_witness :
    (get_integer_input "Enter first number: "
      (mkWorld [.line "abc", .line "", .line "3.5", .line "7"])).1 = .ok 7 ∧
    writesIn (get_integer_input "Enter first number: "
      (mkWorld [.line "abc", .line "", .line "3.5", .line "7"])).2.trace = [] := by
  have h := C6_invalid_input_recovers "Enter first number: " ["abc", "", "3.5"]
    [.line "7"] (mkWorld [.line "abc", .line "", .line "3.5", .line "7"]) (by decide) rfl
  exact ⟨by rw [h.1]; decide, by rw [h.2]; rfl⟩

end RPiQuiz
